import Mathlib

/-!
# Verification of the hollyhock-2 GUI vtable-shadowing layer

Shallow embedding of `gui.hpp` (the vtable-shadowing and trampoline-dispatch
mechanism of the fx-CP400 GUI wrapper classes) and proofs about it.

The target platform is the fx-CP400 (SuperH, 32-bit): pointers are 4 bytes,
`int` is 32 bits.  This is witnessed by the source's own
`static_assert(sizeof(struct GUIDialog_Wrapped) == 0xA8)`, which only holds
with 4-byte pointers.

Struct layouts are embedded as ordered lists of named fields with byte sizes
(all fields of the embedded structs are at most 4-byte aligned and naturally
aligned in sequence, so no implicit padding is inserted and the struct size is
the sum of the field sizes).  Runtime behavior that only has declarations in
the header (the `GUIDialog` constructor and `OnEvent_Wrap` trampoline bodies)
is modelled from the specification, with each such definition marked
`Modelled from the spec:` in its doc comment.
-/

namespace Hollyhock

/-- Byte size of one 32-bit word on the target. -/
def wordSize : Nat := 4

/-- Byte size of a data pointer or function pointer on the target (32-bit). -/
def ptrSize : Nat := 4

/-- Byte size of `VTABLE_FAKE_ENTRY(n, x)`, which expands to
`uint32_t fakeentryx[n * 3]` (source line 39). -/
def VTABLE_FAKE_ENTRY_size (n : Nat) : Nat := n * 3 * wordSize

/-- Byte size of one `VTABLE_ENTRY`, which expands to an `int32_t` adjustor
offset, an unused `uint32_t` padding word and a function pointer
(source lines 52-54). -/
def VTABLE_ENTRY_size : Nat := 4 + 4 + ptrSize

/-- A field of a C struct layout: its name and its byte size. -/
structure CField where
  name : String
  size : Nat
deriving DecidableEq

/-- Total byte size of a struct given as an ordered field list (no implicit
padding: every embedded layout keeps 4-byte alignment throughout). -/
def structSize (fs : List CField) : Nat := (fs.map CField.size).sum

/-- Byte offset of the first field called `n` in the ordered field list. -/
def offsetOf (fs : List CField) (n : String) : Nat :=
  match fs with
  | [] => 0
  | f :: rest => if f.name = n then 0 else f.size + offsetOf rest n

/-- The three fields a `VTABLE_ENTRY(ret, name, ...)` contributes:
`name_Offset : int32_t`, `name_Unused : uint32_t` and the function pointer
`name` (source lines 52-54). -/
def VTABLE_ENTRY_fields (name : String) : List CField :=
  [⟨name ++ "_Offset", 4⟩, ⟨name ++ "_Unused", 4⟩, ⟨name, ptrSize⟩]

/-- The single array field a `VTABLE_FAKE_ENTRY(n, x)` contributes
(source line 39). -/
def VTABLE_FAKE_ENTRY_field (n : Nat) (x : String) : CField :=
  ⟨"fakeentry" ++ x, VTABLE_FAKE_ENTRY_size n⟩

/-- Field layout of `struct GUIDialog_Wrapped_VTable` (source lines 130-178):
the repurposed `me` pointer plus two padding words, then the fake and real
vtable entries in source order. -/
def GUIDialog_Wrapped_VTable_fields : List CField :=
  [⟨"me", ptrSize⟩, ⟨"fakeentrypadding", 2 * wordSize⟩] ++
  [VTABLE_FAKE_ENTRY_field 1 "0"] ++
  VTABLE_ENTRY_fields "OnEvent" ++
  [VTABLE_FAKE_ENTRY_field 1 "1"] ++
  VTABLE_ENTRY_fields "AddElement" ++
  [VTABLE_FAKE_ENTRY_field 4 "2"] ++
  VTABLE_ENTRY_fields "Refresh" ++
  [VTABLE_FAKE_ENTRY_field 23 "3"] ++
  VTABLE_ENTRY_fields "ShowDialog" ++
  [VTABLE_FAKE_ENTRY_field 20 "4"]

/-- Field layout of `struct GUIDialog_Wrapped` (source lines 181-195). -/
def GUIDialog_Wrapped_fields : List CField :=
  [⟨"unknown0", 0x10⟩,
   ⟨"leftX", 2⟩, ⟨"topY", 2⟩, ⟨"rightX", 2⟩, ⟨"bottomY", 2⟩,
   ⟨"unknown1", 0x34⟩,
   ⟨"vtable", ptrSize⟩,
   ⟨"unknown2", 0x58⟩]

/-- Field layout of `struct GUIDialog_OnEvent_Data` (source lines 198-204). -/
def GUIDialog_OnEvent_Data_fields : List CField :=
  [⟨"type", 2⟩, ⟨"unknown0", 2⟩, ⟨"element", ptrSize⟩]

/-- Field layout of `struct GUITextBox_Wrapped_VTable` (source lines 394-403). -/
def GUITextBox_Wrapped_VTable_fields : List CField :=
  [VTABLE_FAKE_ENTRY_field 32 "0"] ++ VTABLE_ENTRY_fields "SetText"

/-- Field layout of `struct GUITextBox_Wrapped` (source lines 406-416). -/
def GUITextBox_Wrapped_fields : List CField :=
  [⟨"unknown0", 0x4C⟩,
   ⟨"vtable", ptrSize⟩,
   ⟨"unknown1", 0x4⟩,
   ⟨"text", ptrSize⟩,
   ⟨"unknown2", 0x48⟩]

/-- The `static_assert` at source line 196: the dialog foreign-object struct
is byte-exact at 0xA8. -/
def GUIDialog_Wrapped_static_assert : Prop :=
  structSize GUIDialog_Wrapped_fields = 0xA8

/-- The `static_assert` at source line 417: the text-box foreign-object
struct is byte-exact at 0xA0. -/
def GUITextBox_Wrapped_static_assert : Prop :=
  structSize GUITextBox_Wrapped_fields = 0xA0

instance : Decidable GUIDialog_Wrapped_static_assert := by
  unfold GUIDialog_Wrapped_static_assert; infer_instance

instance : Decidable GUITextBox_Wrapped_static_assert := by
  unfold GUITextBox_Wrapped_static_assert; infer_instance

/-- `GUIButton::GetEventType` (source lines 288-290):
`return ((eventType + 8) << 4) | (1 << 3);` on a `uint16_t` argument.
C semantics: the `uint16_t` argument (hence the input reduction mod 2^16) is
promoted to 32-bit `int`, the shift and bitwise-or are computed exactly there,
and the result is truncated back to `uint16_t` on return (mod 2^16). -/
def GetEventType (eventType : Nat) : Nat :=
  (((eventType % 2 ^ 16 + 8) <<< 4) ||| (1 <<< 3)) % 2 ^ 16

/-! ## Value-level model of the dialog vtable machinery

Addresses are byte addresses (`Nat`).  Function pointers are code addresses.
Memory holding vtable structs, wrapper objects and foreign objects is
modelled as three maps from addresses to typed values. -/

/-- Pointwise map update at one address (the effect of a store). -/
def upd {β : Type} (f : Nat → β) (a : Nat) (v : β) : Nat → β :=
  fun x => if x = a then v else f x

theorem upd_same {β : Type} (f : Nat → β) (a : Nat) (v : β) : upd f a v a = v := by
  simp [upd]

theorem upd_ne {β : Type} (f : Nat → β) (a : Nat) (v : β) {x : Nat} (h : x ≠ a) :
    upd f a v x = f x := by
  simp [upd, h]

/-- `struct GUIDialog_OnEvent_Data` (source lines 198-204), value view:
a 16-bit event type, a 16-bit unknown word, and the element pointer. -/
structure EventData where
  type : Nat
  unknown0 : Nat
  element : Nat
deriving DecidableEq

/-- `struct GUIDialog_Wrapped_VTable` (source lines 130-178), value view.
`me` is the repurposed identity slot holding the owning wrapper's address;
each `VTABLE_ENTRY` contributes its signed adjustor offset, its unused word
and its function-pointer address; each `VTABLE_FAKE_ENTRY` contributes its
opaque words. -/
structure DialogVTable where
  me : Nat
  fakeentrypadding : List Nat
  fakeentry0 : List Nat
  OnEvent_Offset : Int
  OnEvent_Unused : Nat
  OnEvent : Nat
  fakeentry1 : List Nat
  AddElement_Offset : Int
  AddElement_Unused : Nat
  AddElement : Nat
  fakeentry2 : List Nat
  Refresh_Offset : Int
  Refresh_Unused : Nat
  Refresh : Nat
  fakeentry3 : List Nat
  ShowDialog_Offset : Int
  ShowDialog_Unused : Nat
  ShowDialog : Nat
  fakeentry4 : List Nat
deriving DecidableEq

/-- `struct GUIDialog_Wrapped` (source lines 181-195), value view: the
documented coordinate fields, the vtable pointer (an address into vtable
memory) and the opaque unknown regions. -/
structure DialogWrapped where
  unknown0 : List Nat
  leftX : Nat
  topY : Nat
  rightX : Nat
  bottomY : Nat
  unknown1 : List Nat
  vtable : Nat
  unknown2 : List Nat
deriving DecidableEq

/-- The `GUIDialog` wrapper object (source lines 206-258), value view:
`m_wrapped` (inherited from `Wrapped`, the foreign object's address),
`m_oldVTable` (address of the original table, line 254) and the dynamic
behavior of the wrapper's virtual `OnEvent` (line 242; a subclass may
override it).  The embedded `m_vtable` member (line 255) lives in vtable
memory at `m_vtable_addr` of the wrapper's own address. -/
structure DialogObj where
  m_wrapped : Nat
  m_oldVTable : Nat
  onEventVirt : Nat → EventData → Int

/-- Address of the embedded `m_vtable` member (source line 255) inside a
`GUIDialog` object at address `d`: `d` plus the member's fixed byte offset
within the object (C++ vptr + `m_wrapped` + `m_oldVTable` precede it on the
32-bit target).  Only the injectivity of this map matters below. -/
def m_vtable_addr (d : Nat) : Nat := d + 12

/-- Program state: vtable memory, wrapper-object memory and foreign-object
memory, each a typed map from byte addresses. -/
structure State where
  vtmem : Nat → DialogVTable
  dialogs : Nat → DialogObj
  foreign : Nat → DialogWrapped

/-- Code address of the static trampoline `GUIDialog::OnEvent_Wrap`
(source line 257); an arbitrary distinguished code address. -/
def OnEvent_Wrap_addr : Nat := 0x9000

/-- Modelled from the spec: the body of the `GUIDialog` constructor (declared
at source lines 236-240, body not in the header).  Per spec sections 2 and
4.2-4.3, after the external initializer has produced the foreign object at
`f`, construction (1) preserves the current table address in `m_oldVTable`,
(2) copies the whole table byte-for-byte into the owned writable `m_vtable`,
(3) writes the wrapper's own address `this` into the identity slot `me`,
(4) overwrites the `OnEvent` slot's function pointer with the trampoline's
address, and (5) relinks the foreign object's table pointer to the shadow.
`virt` is the dynamic behavior of the wrapper's virtual `OnEvent`. -/
def constructGUIDialog (s : State) (this f : Nat)
    (virt : Nat → EventData → Int) : State :=
  let oldvt := (s.foreign f).vtable
  let shadow : DialogVTable :=
    { s.vtmem oldvt with me := this, OnEvent := OnEvent_Wrap_addr }
  { vtmem := upd s.vtmem (m_vtable_addr this) shadow
    dialogs := upd s.dialogs this ⟨f, oldvt, virt⟩
    foreign := upd s.foreign f
      { s.foreign f with vtable := m_vtable_addr this } }

/-- Modelled from the spec: the identity-recovery step of the trampoline
(spec section 4.3): from the foreign self-pointer, reach the table the
foreign object currently points at and read the identity slot `me`. -/
def recoverWrapper (s : State) (dialog : Nat) : Nat :=
  (s.vtmem (s.foreign dialog).vtable).me

/-- Modelled from the spec: the body of the static trampoline
`GUIDialog::OnEvent_Wrap` (declared at source line 257, body not in the
header): recover the owning wrapper through the identity slot and invoke the
wrapper's polymorphic `OnEvent` with the call's arguments. -/
def OnEvent_Wrap (s : State) (dialog : Nat) (event : EventData) : Int :=
  (s.dialogs (recoverWrapper s dialog)).onEventVirt dialog event

/-- Semantics of raw function-pointer addresses for the `OnEvent` slot
signature: a map from code address to the function's behavior on the
(possibly adjusted) self pointer and the event descriptor. -/
def FnSem : Type := Nat → Int → EventData → Int

/-- `VTABLE_CALL_EXT` (source lines 64-69): the single shared foreign-call
invoker.  Given the semantics `env` of code addresses, a self pointer, and a
slot's stored adjustor offset and function-pointer address, it adds the
offset (in bytes) to the self pointer and invokes the function pointer on
the adjusted pointer followed by the call's remaining arguments, unchanged.
Polymorphic in the remaining-argument and result types, exactly as the macro
is used with every slot signature. -/
def VTABLE_CALL_EXT {α β : Type} (env : Nat → Int → α → β)
    (self : Int) (offset : Int) (fnptr : Nat) (args : α) : β :=
  env fnptr (self + offset) args

/-- The expansion of `VTABLE_CALL_EXT(self, vt, OnEvent, event)` for the
dialog vtable's `OnEvent` slot. -/
def call_OnEvent (env : FnSem) (vt : DialogVTable) (self : Int)
    (event : EventData) : Int :=
  VTABLE_CALL_EXT env self vt.OnEvent_Offset vt.OnEvent event

/-- The expansion of `VTABLE_CALL_EXT(self, vt, AddElement, element, unk0)`
for the dialog vtable's `AddElement` slot. -/
def call_AddElement {γ : Type} (env : Nat → Int → Nat × Int → γ)
    (vt : DialogVTable) (self : Int) (element : Nat) (unknown0 : Int) : γ :=
  VTABLE_CALL_EXT env self vt.AddElement_Offset vt.AddElement (element, unknown0)

/-- The expansion of `VTABLE_CALL_EXT(self, vt, Refresh)` for the dialog
vtable's `Refresh` slot (no further arguments). -/
def call_Refresh {γ : Type} (env : Nat → Int → Unit → γ)
    (vt : DialogVTable) (self : Int) : γ :=
  VTABLE_CALL_EXT env self vt.Refresh_Offset vt.Refresh ()

/-- The expansion of `VTABLE_CALL_EXT(self, vt, ShowDialog)` for the dialog
vtable's `ShowDialog` slot (no further arguments). -/
def call_ShowDialog {γ : Type} (env : Nat → Int → Unit → γ)
    (vt : DialogVTable) (self : Int) : γ :=
  VTABLE_CALL_EXT env self vt.ShowDialog_Offset vt.ShowDialog ()

/-- A call dispatched by the foreign side through the `OnEvent` slot of the
table currently linked to the foreign object at `f`: look up the table the
object points at and invoke that slot through the shared invoker. -/
def dispatchOnEvent (env : FnSem) (s : State) (f : Nat) (event : EventData) : Int :=
  call_OnEvent env (s.vtmem (s.foreign f).vtable) (f : Int) event

/-- Modelled from the spec: the body of the base-class default
`GUIDialog::OnEvent` (declared at source line 242, body not in the header).
Per spec section 4.3, the default implementation falls through to the
original pre-shadow function pointer: it calls through the preserved
`m_oldVTable` with `VTABLE_CALL_EXT`, passing the foreign dialog pointer and
the event on unchanged. -/
def GUIDialog_OnEvent_default (env : FnSem) (s : State) (this : Nat)
    (dialog : Int) (event : EventData) : Int :=
  call_OnEvent env (s.vtmem (s.dialogs this).m_oldVTable) dialog event

/-! ## Model of the C++ special-member rules for `Wrapped` (copy/move) -/

/-- The special member functions a class declares in the source, and whether
the declared ones are `= delete`. -/
structure SpecialMembers where
  declaresCopyCtor : Bool
  copyCtorDeleted : Bool
  declaresMoveCtor : Bool
  declaresCopyAssign : Bool
  copyAssignDeleted : Bool
  declaresMoveAssign : Bool
  declaresDtor : Bool
deriving DecidableEq

/-- A class in the `Wrapped` hierarchy: its own special-member declarations
plus whether its direct base (if any) is copy-constructible,
move-constructible, copy-assignable and move-assignable.  None of these
classes has a data member that restricts copying, so the base is the only
inherited constraint that matters. -/
structure CppClass where
  members : SpecialMembers
  baseCopyCtor : Bool
  baseMoveCtor : Bool
  baseCopyAssign : Bool
  baseMoveAssign : Bool
deriving DecidableEq

/-- C++ rule: an implicit move constructor/assignment exists only when the
class declares no copy operation, no move operation and no destructor. -/
def implicitMoveEligible (m : SpecialMembers) : Bool :=
  !m.declaresCopyCtor && !m.declaresCopyAssign && !m.declaresMoveCtor &&
  !m.declaresMoveAssign && !m.declaresDtor

/-- C++ rule: a class is copy-constructible iff its user-declared copy
constructor is not deleted, or, when none is declared, its implicitly
declared copy constructor is not defined as deleted — which for these
classes means the base is copy-constructible. -/
def copyConstructible (c : CppClass) : Bool :=
  if c.members.declaresCopyCtor then !c.members.copyCtorDeleted
  else c.baseCopyCtor

/-- C++ rule: a class is copy-assignable iff its user-declared copy
assignment is not deleted, or, when none is declared, the base is
copy-assignable. -/
def copyAssignable (c : CppClass) : Bool :=
  if c.members.declaresCopyAssign then !c.members.copyAssignDeleted
  else c.baseCopyAssign

/-- C++ rule: move construction succeeds through a user-declared move
constructor, else through the implicit move constructor when it is eligible
and the base is move-constructible; otherwise (a deleted or absent implicit
move constructor is ignored by overload resolution) the rvalue binds to the
copy constructor, so move construction succeeds iff copying does. -/
def moveConstructible (c : CppClass) : Bool :=
  if c.members.declaresMoveCtor then true
  else if implicitMoveEligible c.members && c.baseMoveCtor then true
  else copyConstructible c

/-- C++ rule for move assignment, mirroring `moveConstructible`. -/
def moveAssignable (c : CppClass) : Bool :=
  if c.members.declaresMoveAssign then true
  else if implicitMoveEligible c.members && c.baseMoveAssign then true
  else copyAssignable c

/-- `class Wrapped` (source lines 94-119): declares a defaulted default
constructor and destructor (lines 108-109), a deleted copy constructor
(line 114) and a deleted copy assignment (line 115); no move operations.
It has no base class, so the base flags are unconstrained (true). -/
def Wrapped_class : CppClass :=
  { members :=
      { declaresCopyCtor := true, copyCtorDeleted := true
        declaresMoveCtor := false
        declaresCopyAssign := true, copyAssignDeleted := true
        declaresMoveAssign := false
        declaresDtor := true }
    baseCopyCtor := true, baseMoveCtor := true
    baseCopyAssign := true, baseMoveAssign := true }

/-- `class GUIElement : public Wrapped` (source line 124): declares no
special members; its base is `Wrapped`. -/
def GUIElement_class : CppClass :=
  { members :=
      { declaresCopyCtor := false, copyCtorDeleted := false
        declaresMoveCtor := false
        declaresCopyAssign := false, copyAssignDeleted := false
        declaresMoveAssign := false
        declaresDtor := false }
    baseCopyCtor := copyConstructible Wrapped_class
    baseMoveCtor := moveConstructible Wrapped_class
    baseCopyAssign := copyAssignable Wrapped_class
    baseMoveAssign := moveAssignable Wrapped_class }

/-- `class GUIDialog : public Wrapped` (source lines 206-258): declares an
ordinary constructor and virtual member but no copy/move operations and no
destructor; it is the class holding the active shadow `m_vtable`. -/
def GUIDialog_class : CppClass :=
  { members :=
      { declaresCopyCtor := false, copyCtorDeleted := false
        declaresMoveCtor := false
        declaresCopyAssign := false, copyAssignDeleted := false
        declaresMoveAssign := false
        declaresDtor := false }
    baseCopyCtor := copyConstructible Wrapped_class
    baseMoveCtor := moveConstructible Wrapped_class
    baseCopyAssign := copyAssignable Wrapped_class
    baseMoveAssign := moveAssignable Wrapped_class }

/-- `class GUITextBox : public GUIElement` (source lines 419-440): declares
ordinary constructors but no copy/move operations. -/
def GUITextBox_class : CppClass :=
  { members :=
      { declaresCopyCtor := false, copyCtorDeleted := false
        declaresMoveCtor := false
        declaresCopyAssign := false, copyAssignDeleted := false
        declaresMoveAssign := false
        declaresDtor := false }
    baseCopyCtor := copyConstructible GUIElement_class
    baseMoveCtor := moveConstructible GUIElement_class
    baseCopyAssign := copyAssignable GUIElement_class
    baseMoveAssign := moveAssignable GUIElement_class }

/-! ## Concrete values for witnesses -/

/-- A concrete original (ROM) dialog vtable for witness states. -/
def vt_init : DialogVTable :=
  { me := 0
    fakeentrypadding := [0, 0]
    fakeentry0 := [0, 0, 0]
    OnEvent_Offset := 0, OnEvent_Unused := 0, OnEvent := 0x1000
    fakeentry1 := [0, 0, 0]
    AddElement_Offset := 0, AddElement_Unused := 0, AddElement := 0x1100
    fakeentry2 := List.replicate 12 0
    Refresh_Offset := 0, Refresh_Unused := 0, Refresh := 0x1200
    fakeentry3 := List.replicate 69 0
    ShowDialog_Offset := 0, ShowDialog_Unused := 0, ShowDialog := 0x1300
    fakeentry4 := List.replicate 60 0 }

/-- A concrete freshly-initialized foreign dialog object whose table pointer
is the ROM table at `0x8000`. -/
def wrapped_init : DialogWrapped :=
  { unknown0 := List.replicate 16 0
    leftX := 0, topY := 0, rightX := 0, bottomY := 0
    unknown1 := List.replicate 52 0
    vtable := 0x8000
    unknown2 := List.replicate 88 0 }

/-- A concrete pre-construction state for witnesses: every vtable address
reads the ROM table, every foreign address reads a fresh foreign object. -/
def state_init : State :=
  { vtmem := fun _ => vt_init
    dialogs := fun _ => ⟨0, 0, fun _ _ => 0⟩
    foreign := fun _ => wrapped_init }

/-! ## The claims -/

/-- C6, as the spec states it, is false: the declared dialog-class dispatch
table layout (`GUIDialog_Wrapped_VTable`) is 0x288 bytes, not 0xA8, and the
text-box table layout (`GUITextBox_Wrapped_VTable`) is 0x18C bytes, not
0xA0.  The 0xA8/0xA0 constants are the sizes of the wrapped foreign-object
structs, not of the tables. -/
theorem C6_table_size_counterexample :
    structSize GUIDialog_Wrapped_VTable_fields = 0x288 ∧
    structSize GUIDialog_Wrapped_VTable_fields ≠ 0xA8 ∧
    structSize GUITextBox_Wrapped_VTable_fields = 0x18C ∧
    structSize GUITextBox_Wrapped_VTable_fields ≠ 0xA0 := by
  decide

/-- C6 (amended): the declared dialog-class wrapped foreign-object struct
layout is byte-exact at 0xA8 bytes and the text-box wrapped struct layout at
0xA0 bytes, each equal to the foreign ABI constant asserted by the
compile-time `static_assert` at source lines 196 and 417, so a size mismatch
fails the build rather than being a runtime condition. -/
theorem C6_struct_sizes_statically_asserted :
    GUIDialog_Wrapped_static_assert ∧ GUITextBox_Wrapped_static_assert ∧
    structSize GUIDialog_Wrapped_fields = 0xA8 ∧
    structSize GUITextBox_Wrapped_fields = 0xA0 := by
  decide

/-- C8: the event descriptor passed into the trampoline
(`GUIDialog_OnEvent_Data`) has exactly three fields, in the order 16-bit
`type`, 16-bit auxiliary word (`unknown0`), then the element pointer, at
byte offsets 0, 2 and 4, for a total of 8 bytes. -/
theorem C8_event_descriptor_shape :
    GUIDialog_OnEvent_Data_fields.length = 3 ∧
    GUIDialog_OnEvent_Data_fields.map CField.name =
      ["type", "unknown0", "element"] ∧
    GUIDialog_OnEvent_Data_fields.map CField.size = [2, 2, ptrSize] ∧
    offsetOf GUIDialog_OnEvent_Data_fields "type" = 0 ∧
    offsetOf GUIDialog_OnEvent_Data_fields "unknown0" = 2 ∧
    offsetOf GUIDialog_OnEvent_Data_fields "element" = 4 ∧
    structSize GUIDialog_OnEvent_Data_fields = 8 := by
  decide

/-- C9: every vtable slot occupies exactly three 32-bit words — a
`VTABLE_ENTRY` contributes an `int32` adjustor offset, one unused padding
word and a 4-byte function pointer, 12 bytes in all, and
`VTABLE_FAKE_ENTRY(n, x)` contributes exactly `n` times three words — so
every named slot of the shadowed dialog layout sits at 12 times its foreign
slot index (`OnEvent` at slot 2, `AddElement` at slot 4, `Refresh` at slot
9, `ShowDialog` at slot 33, 54 slots in all; the text-box `SetText` at slot
32). -/
theorem C9_slot_geometry :
    (∀ n : Nat, VTABLE_FAKE_ENTRY_size n = n * (3 * wordSize)) ∧
    VTABLE_ENTRY_size = 3 * wordSize ∧
    (∀ name : String, structSize (VTABLE_ENTRY_fields name) = 3 * wordSize) ∧
    offsetOf GUIDialog_Wrapped_VTable_fields "OnEvent_Offset" = 2 * 12 ∧
    offsetOf GUIDialog_Wrapped_VTable_fields "AddElement_Offset" = 4 * 12 ∧
    offsetOf GUIDialog_Wrapped_VTable_fields "Refresh_Offset" = 9 * 12 ∧
    offsetOf GUIDialog_Wrapped_VTable_fields "ShowDialog_Offset" = 33 * 12 ∧
    structSize GUIDialog_Wrapped_VTable_fields = 54 * 12 ∧
    offsetOf GUITextBox_Wrapped_VTable_fields "SetText_Offset" = 32 * 12 := by
  refine ⟨fun n => ?_, by decide, fun name => ?_, by decide, by decide,
    by decide, by decide, by decide, by decide⟩
  · simp [VTABLE_FAKE_ENTRY_size, wordSize]; ring
  · simp [VTABLE_ENTRY_fields, structSize, ptrSize, wordSize]

/-- C10: for every 16-bit `eventType`, `GUIButton::GetEventType` returns
`((eventType + 8) <<< 4) ||| (1 <<< 3)` reduced to 16 bits; the same value
results when every intermediate step wraps at 16 bits; the result always has
bit 3 set and bits 0, 1 and 2 clear. -/
theorem C10_GetEventType_spec (e : Nat) (he : e < 2 ^ 16) :
    GetEventType e = (((e + 8) <<< 4) ||| (1 <<< 3)) % 2 ^ 16 ∧
    GetEventType e =
      ((((e + 8) % 2 ^ 16) <<< 4) % 2 ^ 16 ||| (1 <<< 3)) % 2 ^ 16 ∧
    (GetEventType e).testBit 3 = true ∧
    (GetEventType e).testBit 0 = false ∧
    (GetEventType e).testBit 1 = false ∧
    (GetEventType e).testBit 2 = false := by
  have key : ∀ x : Nat,
      (((x % 2 ^ 16) <<< 4) % 2 ^ 16 ||| (1 <<< 3)) % 2 ^ 16 =
        ((x <<< 4) ||| (1 <<< 3)) % 2 ^ 16 := by
    intro x
    apply Nat.eq_of_testBit_eq
    intro i
    simp only [Nat.testBit_mod_two_pow, Nat.testBit_or, Nat.testBit_shiftLeft]
    by_cases h16 : i < 16
    · by_cases h4 : 4 ≤ i
      · have h : i - 4 < 16 := by omega
        simp [h16, h4, h]
      · simp [h16, h4]
    · simp [h16]
  have hmod : e % 2 ^ 16 = e := Nat.mod_eq_of_lt he
  have h1 : GetEventType e = (((e + 8) <<< 4) ||| (1 <<< 3)) % 2 ^ 16 := by
    rw [GetEventType, hmod]
  refine ⟨h1, ?_, ?_, ?_, ?_, ?_⟩
  · rw [h1, ← key (e + 8)]
  all_goals rw [h1]
  all_goals simp only [Nat.testBit_mod_two_pow, Nat.testBit_or,
    Nat.testBit_shiftLeft]
  all_goals simp

/-- Witness for C10 at the concrete input 5:
`GetEventType 5 = ((13) <<< 4) ||| 8 = 216`, with the stated bits. -/
theorem C10_GetEventType_spec_witness :
    GetEventType 5 = (((5 + 8) <<< 4) ||| (1 <<< 3)) % 2 ^ 16 ∧
    GetEventType 5 =
      ((((5 + 8) % 2 ^ 16) <<< 4) % 2 ^ 16 ||| (1 <<< 3)) % 2 ^ 16 ∧
    (GetEventType 5).testBit 3 = true ∧
    (GetEventType 5).testBit 0 = false ∧
    (GetEventType 5).testBit 1 = false ∧
    (GetEventType 5).testBit 2 = false :=
  C10_GetEventType_spec 5 (by decide)

/-- C2: for every slot and every self-pointer, the shared invoker
`VTABLE_CALL_EXT` performs exactly two steps — it adds the slot's stored
signed adjustor offset in bytes to the self-pointer, then invokes the slot's
function pointer with the adjusted pointer as first argument followed by the
call's remaining arguments unmodified and in their original order — and the
same routine (`VTABLE_CALL_EXT`, through which every `call_*` below is
defined) serves every slot of the table. -/
theorem C2_invoker_two_step {γ δ : Type} (env : FnSem)
    (env2 : Nat → Int → Nat × Int → γ) (env3 env4 : Nat → Int → Unit → δ)
    (vt : DialogVTable) (self : Int) (event : EventData)
    (element : Nat) (unknown0 : Int) :
    call_OnEvent env vt self event =
      env vt.OnEvent (self + vt.OnEvent_Offset) event ∧
    call_AddElement env2 vt self element unknown0 =
      env2 vt.AddElement (self + vt.AddElement_Offset) (element, unknown0) ∧
    call_Refresh env3 vt self =
      env3 vt.Refresh (self + vt.Refresh_Offset) () ∧
    call_ShowDialog env4 vt self =
      env4 vt.ShowDialog (self + vt.ShowDialog_Offset) () ∧
    (∀ (α β : Type) (g : Nat → Int → α → β) (s off : Int) (p : Nat) (a : α),
      VTABLE_CALL_EXT g s off p a = g p (s + off) a) :=
  ⟨rfl, rfl, rfl, rfl, fun _ _ _ _ _ _ _ => rfl⟩

/-- C7: for `Wrapped` and every class derived from it — including
`GUIDialog`, the type holding an active shadow — copy construction, copy
assignment, move construction and move assignment are all rejected, so such
an object can be neither duplicated nor relocated and its address is pinned
for its whole lifetime. -/
theorem C7_copy_move_rejected :
    copyConstructible Wrapped_class = false ∧
    moveConstructible Wrapped_class = false ∧
    copyAssignable Wrapped_class = false ∧
    moveAssignable Wrapped_class = false ∧
    copyConstructible GUIElement_class = false ∧
    moveConstructible GUIElement_class = false ∧
    copyAssignable GUIElement_class = false ∧
    moveAssignable GUIElement_class = false ∧
    copyConstructible GUIDialog_class = false ∧
    moveConstructible GUIDialog_class = false ∧
    copyAssignable GUIDialog_class = false ∧
    moveAssignable GUIDialog_class = false ∧
    copyConstructible GUITextBox_class = false ∧
    moveConstructible GUITextBox_class = false ∧
    copyAssignable GUITextBox_class = false ∧
    moveAssignable GUITextBox_class = false := by
  decide

/-- C1: construction writes the wrapper's own address into the identity slot
of its shadow; afterwards, any invocation of the trampoline with a foreign
self-pointer whose table pointer reaches that shadow recovers exactly that
wrapper address, and the trampoline call dispatches through it to the
wrapper's polymorphic `OnEvent`. -/
theorem C1_identity_roundtrip (s : State) (this f p : Nat)
    (virt : Nat → EventData → Int) (event : EventData)
    (hp : ((constructGUIDialog s this f virt).foreign p).vtable =
      m_vtable_addr this) :
    recoverWrapper (constructGUIDialog s this f virt) p = this ∧
    OnEvent_Wrap (constructGUIDialog s this f virt) p event = virt p event := by
  have hrec : recoverWrapper (constructGUIDialog s this f virt) p = this := by
    rw [recoverWrapper, hp]
    simp [constructGUIDialog, upd_same]
  refine ⟨hrec, ?_⟩
  rw [OnEvent_Wrap, hrec]
  simp [constructGUIDialog, upd_same]

/-- Witness for C1: constructing the wrapper at address 100 over the foreign
object at address 200 and invoking the trampoline with self-pointer 200
recovers 100 and dispatches to the override of that wrapper. -/
theorem C1_identity_roundtrip_witness :
    recoverWrapper (constructGUIDialog state_init 100 200 fun _ _ => 7) 200 =
      100 ∧
    OnEvent_Wrap (constructGUIDialog state_init 100 200 fun _ _ => 7) 200
        ⟨5, 0, 0⟩ =
      (7 : Int) :=
  C1_identity_roundtrip state_init 100 200 200 (fun _ _ => 7) ⟨5, 0, 0⟩
    (by decide)

/-- C3: after construction, every slot of the shadow other than the identity
slot `me` and the overwritten `OnEvent` function pointer equals the original
table's value exactly — every adjustor offset, every unused word, every
other function pointer and every fake (padding) entry, including the
untouched words of the overridden `OnEvent` entry itself. -/
theorem C3_untouched_slots_preserved (s : State) (this f : Nat)
    (virt : Nat → EventData → Int) :
    (constructGUIDialog s this f virt).vtmem (m_vtable_addr this) =
      { s.vtmem ((s.foreign f).vtable) with
          me := this, OnEvent := OnEvent_Wrap_addr } := by
  simp [constructGUIDialog, upd_same]

/-- C4: with two wrapper instances alive at once (built sequentially over
distinct foreign objects), invoking the trampoline through one instance's
foreign object dispatches to that instance's own override and never to the
other's: each observed result is the addressed instance's override applied
to the call's arguments. -/
theorem C4_no_crosstalk (s : State) (w1 w2 f1 f2 : Nat)
    (v1 v2 : Nat → EventData → Int) (event : EventData)
    (hw : w1 ≠ w2) (hf : f1 ≠ f2) :
    OnEvent_Wrap
        (constructGUIDialog (constructGUIDialog s w1 f1 v1) w2 f2 v2) f1
        event = v1 f1 event ∧
    OnEvent_Wrap
        (constructGUIDialog (constructGUIDialog s w1 f1 v1) w2 f2 v2) f2
        event = v2 f2 event := by
  have h12 : w1 + 12 ≠ w2 + 12 := by omega
  constructor
  · simp [OnEvent_Wrap, recoverWrapper, constructGUIDialog, upd,
      m_vtable_addr, hw, hf, h12]
  · simp [OnEvent_Wrap, recoverWrapper, constructGUIDialog, upd,
      m_vtable_addr]

/-- Witness for C4: wrappers at 100 and 101 over foreign objects at 200 and
201, with sentinel overrides 11 and 22: each trampoline invocation returns
the sentinel of the instance addressed. -/
theorem C4_no_crosstalk_witness :
    OnEvent_Wrap
        (constructGUIDialog
          (constructGUIDialog state_init 100 200 fun _ _ => 11)
          101 201 fun _ _ => 22) 200 ⟨5, 0, 0⟩ =
      (11 : Int) ∧
    OnEvent_Wrap
        (constructGUIDialog
          (constructGUIDialog state_init 100 200 fun _ _ => 11)
          101 201 fun _ _ => 22) 201 ⟨5, 0, 0⟩ =
      (22 : Int) :=
  C4_no_crosstalk state_init 100 101 200 201 (fun _ _ => 11) (fun _ _ => 22)
    ⟨5, 0, 0⟩ (by decide) (by decide)

/-- C5: when the override forwards through the preserved pre-shadow table
pointer (the base-class default `GUIDialog::OnEvent` calling
`VTABLE_CALL_EXT` on `m_oldVTable`), the resulting behavior is exactly what
a dispatch through the original table produced before shadowing — provided
the shadow was not built on top of the original table's own storage (it is
owned writable memory; the original lives in ROM). -/
theorem C5_forward_preserves_default (env : FnSem) (s : State) (this f : Nat)
    (virt : Nat → EventData → Int) (event : EventData)
    (hsh : m_vtable_addr this ≠ (s.foreign f).vtable) :
    GUIDialog_OnEvent_default env (constructGUIDialog s this f virt) this
        (f : Int) event =
      dispatchOnEvent env s f event := by
  have h := Ne.symm hsh
  simp [GUIDialog_OnEvent_default, dispatchOnEvent, call_OnEvent,
    VTABLE_CALL_EXT, constructGUIDialog, upd, h]

/-- Witness for C5: with the wrapper at 100 (shadow at 112) over the foreign
object at 200 whose original table lives at 0x8000, forwarding through
`m_oldVTable` equals the pre-shadow dispatch, under the semantics that maps
each code address `p` called on self `x` to `p + x`. -/
theorem C5_forward_preserves_default_witness :
    GUIDialog_OnEvent_default (fun p x _ => (p : Int) + x)
        (constructGUIDialog state_init 100 200 fun _ _ => 7) 100
        ((200 : Nat) : Int) ⟨5, 0, 0⟩ =
      dispatchOnEvent (fun p x _ => (p : Int) + x) state_init 200 ⟨5, 0, 0⟩ :=
  C5_forward_preserves_default (fun p x _ => (p : Int) + x) state_init 100 200
    (fun _ _ => 7) ⟨5, 0, 0⟩ (by decide)

end Hollyhock
